import Mathlib

/-!
Shallow embedding of `dawgmon.py` (attack surface analyzer and change
monitor) and verification of properties of its diff engine
(`compare_output`), its presentation layer (`print_anomalies`) and the
control flow of `run`.

Snapshots are modelled as association lists from probe name to raw
captured payload, mirroring Python dict semantics (unique keys, insertion
order preserved).  Exceptions (`raise`, `KeyError`, `sys.exit`) are
modelled with `Except`; the observable behaviour of `run` is modelled as
a trace of effects.
-/

namespace Dawgmon

/-- The three anomaly severity kinds `CHANGE`/`WARNING`/`DEBUG` from the
`commands` module. -/
inductive Kind
  | CHANGE
  | WARNING
  | DEBUG
  deriving DecidableEq, Repr

/-- An anomaly as produced by the engine and probes: a pair of severity
kind (`x[0]` in the Python tuples) and message (`x[1]`). -/
structure Anomaly where
  kind : Kind
  message : String
  deriving DecidableEq, Repr

/-- Modelled from the spec: `commands.W` (module `commands` is not in the
source tree); the engine's own bookkeeping creates WARNING anomalies, so
`W msg` builds an anomaly of kind WARNING carrying `msg`. -/
def W (msg : String) : Anomaly := ⟨Kind.WARNING, msg⟩

/-- A snapshot: mapping from probe (command) name to raw captured output,
as an insertion-ordered association list with unique keys. -/
abbrev Snapshot := List (String × String)

/-- Dynamic result of a probe's `compare`: either an actual Python list of
anomalies, or a value of some other type (which the engine must reject). -/
inductive PyRet
  | asList (l : List Anomaly)
  | nonList
  deriving DecidableEq, Repr

/-- A probe descriptor (a command object): a name plus the
`parse`/`compare` capability pair, with probe-specific structured type
`S`. -/
structure Command (S : Type) where
  name : String
  parse : String → S
  compare : S → S → PyRet

/-- The probe registry `commands.COMMAND_CACHE`, as a lookup function
(`.get(task_name, None)`). -/
abbrev Registry (S : Type) := String → Option (Command S)

/-- Modelled from the spec: `utils.merge_keys_to_list` (module `utils` is
not in the source tree).  Per spec §4.2 step 2: all keys of `old` in their
original order, followed by keys present only in `new` in their original
order, with no duplicates. -/
def merge_keys_to_list (old new : Snapshot) : List String :=
  old.map Prod.fst ++ (new.map Prod.fst).filter (fun k => !(old.map Prod.fst).contains k)

/-- Python truthiness test `commandlist and task_name not in commandlist`
from line 24 of `dawgmon.py`: the task is skipped iff a non-empty command
list was supplied and the task is not in it. -/
def filter_skips (cl : Option (List String)) (t : String) : Bool :=
  match cl with
  | none => false
  | some l => !l.isEmpty && !l.contains t

/-- The warning message built on line 22 of `dawgmon.py` for a task name
missing from the registry. -/
def unknown_msg (t : String) : String :=
  "unknown command with name " ++ t ++ " found (cache generated by older version?)"

/-- The exception message raised on line 32 of `dawgmon.py` when a probe's
`compare` returns a non-list value (Python interpolates the command object
itself; we use its name). -/
def type_err_msg {S : Type} (cmd : Command S) : String :=
  "unexpected return value type for " ++ cmd.name

/-- Line 27 of `dawgmon.py`:
`old_data = old[task_name] if task_name in old else ""`. -/
def old_raw_of (old : Snapshot) (t : String) : String :=
  match List.lookup t old with
  | some v => v
  | none => ""

/-- The loop body of `compare_output` (lines 19–34 of `dawgmon.py`),
processing the task list while accumulating anomalies.  A `KeyError` from
`new[task_name]` and the explicit `raise` for a non-list `compare` result
surface as `Except.error`. -/
def compare_tasks {S : Type} (reg : Registry S) (old new : Snapshot)
    (cl : Option (List String)) :
    List String → List Anomaly → Except String (List Anomaly)
  | [], anomalies => .ok anomalies
  | t :: rest, anomalies =>
    match reg t with
    | none => compare_tasks reg old new cl rest (anomalies ++ [W (unknown_msg t)])
    | some cmd =>
      if filter_skips cl t then
        compare_tasks reg old new cl rest anomalies
      else
        match List.lookup t new with
        | none => .error ("KeyError: " ++ t)
        | some new_raw =>
          let old_data := cmd.parse (old_raw_of old t)
          let new_data := cmd.parse new_raw
          match cmd.compare old_data new_data with
          | .nonList => .error (type_err_msg cmd)
          | .asList ret =>
            compare_tasks reg old new cl rest
              (if ret.isEmpty then anomalies else anomalies ++ ret)

/-- The diff engine `compare_output(old, new, commandlist=None)` from
lines 13–35 of `dawgmon.py`.  `old?` is `None` or a dict; the Python
`if not old: old = {}` truthiness test replaces both `None` and an empty
dict by `{}`. -/
def compare_output {S : Type} (reg : Registry S) (old? : Option Snapshot)
    (new : Snapshot) (commandlist : Option (List String)) :
    Except String (List Anomaly) :=
  let old : Snapshot := match old? with
    | none => []
    | some o => if o.isEmpty then [] else o
  compare_tasks reg old new commandlist (merge_keys_to_list old new) []

/-- The contribution of a single task to the aggregate anomaly list: one
unknown-probe warning, nothing when filtered out, the probe's `compare`
result, or a fatal error. -/
def task_anomalies {S : Type} (reg : Registry S) (old new : Snapshot)
    (cl : Option (List String)) (t : String) : Except String (List Anomaly) :=
  match reg t with
  | none => .ok [W (unknown_msg t)]
  | some cmd =>
    if filter_skips cl t then .ok []
    else
      match List.lookup t new with
      | none => .error ("KeyError: " ++ t)
      | some new_raw =>
        match cmd.compare (cmd.parse (old_raw_of old t)) (cmd.parse new_raw) with
        | .nonList => .error (type_err_msg cmd)
        | .asList ret => .ok ret

theorem compare_tasks_step {S : Type} (reg : Registry S) (old new : Snapshot)
    (cl : Option (List String)) (t : String) (rest : List String)
    (acc : List Anomaly) :
    compare_tasks reg old new cl (t :: rest) acc =
      match task_anomalies reg old new cl t with
      | .error e => .error e
      | .ok ret => compare_tasks reg old new cl rest (acc ++ ret) := by
  cases hreg : reg t with
  | none => simp [compare_tasks, task_anomalies, hreg]
  | some cmd =>
    by_cases hf : filter_skips cl t
    · simp [compare_tasks, task_anomalies, hreg, hf]
    · cases hlook : List.lookup t new with
      | none => simp [compare_tasks, task_anomalies, hreg, hf, hlook]
      | some nr =>
        cases hcmp : cmd.compare (cmd.parse (old_raw_of old t)) (cmd.parse nr) with
        | nonList => simp [compare_tasks, task_anomalies, hreg, hf, hlook, hcmp]
        | asList ret =>
          cases ret with
          | nil => simp [compare_tasks, task_anomalies, hreg, hf, hlook, hcmp]
          | cons a l => simp [compare_tasks, task_anomalies, hreg, hf, hlook, hcmp]

theorem compare_tasks_ok_concat {S : Type} (reg : Registry S)
    (old new : Snapshot) (cl : Option (List String)) (f : String → List Anomaly) :
    ∀ (l : List String) (acc : List Anomaly),
      (∀ t ∈ l, task_anomalies reg old new cl t = .ok (f t)) →
      compare_tasks reg old new cl l acc = .ok (acc ++ l.flatMap f) := by
  intro l
  induction l with
  | nil => intro acc _; simp [compare_tasks]
  | cons t rest ih =>
    intro acc h
    rw [compare_tasks_step, h t (List.mem_cons_self t rest)]
    dsimp only
    rw [ih (acc ++ f t) (fun s hs => h s (List.mem_cons_of_mem t hs))]
    simp

/-- Applying `compare_output` to `some old` reduces to the task loop:
the truthiness rewrite is the identity on snapshots. -/
theorem compare_output_some {S : Type} (reg : Registry S) (old new : Snapshot)
    (cl : Option (List String)) :
    compare_output reg (some old) new cl =
      compare_tasks reg old new cl (merge_keys_to_list old new) [] := by
  unfold compare_output
  cases old with
  | nil => rfl
  | cons p rest => rfl

/-- C3: `compare_output` with `old = None` behaves exactly as with
`old = {}`: an absent baseline is an empty snapshot. -/
theorem compare_output_none_eq_empty {S : Type} (reg : Registry S)
    (new : Snapshot) (cl : Option (List String)) :
    compare_output reg none new cl = compare_output reg (some []) new cl := by
  rfl

/-- A registry with no probes registered at all. -/
def regNone : Registry Unit := fun _ => none

/-- C2: a task name absent from the registry contributes exactly one
WARNING anomaly whose message names it, no CHANGE/DEBUG anomalies, and
processing continues with the remaining task names; in particular
scenario B (`old = new = {"foo": "x"}`, `foo` unregistered) returns
exactly that one WARNING. -/
theorem compare_unknown_task {S : Type} (reg : Registry S) (old new : Snapshot)
    (cl : Option (List String)) (t : String) (rest : List String)
    (acc : List Anomaly) (h : reg t = none) :
    task_anomalies reg old new cl t = .ok [W (unknown_msg t)]
    ∧ (W (unknown_msg t)).kind = Kind.WARNING
    ∧ (W (unknown_msg t)).message =
        "unknown command with name " ++ t ++ " found (cache generated by older version?)"
    ∧ compare_tasks reg old new cl (t :: rest) acc =
        compare_tasks reg old new cl rest (acc ++ [W (unknown_msg t)])
    ∧ (reg "foo" = none →
        compare_output reg (some [("foo", "x")]) [("foo", "x")] none =
          .ok [W (unknown_msg "foo")]) := by
  refine ⟨by simp [task_anomalies, h], rfl, rfl, ?_, ?_⟩
  · rw [compare_tasks_step]
    simp [task_anomalies, h]
  · intro hfoo
    have hm : merge_keys_to_list [("foo", "x")] [("foo", "x")] = ["foo"] := by decide
    rw [compare_output_some, hm, compare_tasks_step]
    simp [task_anomalies, hfoo, compare_tasks]

theorem compare_unknown_task_witness :
    task_anomalies regNone [("foo", "x")] [("foo", "x")] none "foo" =
      .ok [W (unknown_msg "foo")]
    ∧ (W (unknown_msg "foo")).kind = Kind.WARNING
    ∧ (W (unknown_msg "foo")).message =
        "unknown command with name " ++ "foo" ++ " found (cache generated by older version?)"
    ∧ compare_tasks regNone [("foo", "x")] [("foo", "x")] none ("foo" :: []) [] =
        compare_tasks regNone [("foo", "x")] [("foo", "x")] none [] ([] ++ [W (unknown_msg "foo")])
    ∧ (regNone "foo" = none →
        compare_output regNone (some [("foo", "x")]) [("foo", "x")] none =
          .ok [W (unknown_msg "foo")]) :=
  compare_unknown_task regNone [("foo", "x")] [("foo", "x")] none "foo" [] [] rfl

/-- C1 is false as stated: the registry lookup precedes the filter check,
so with `foo` unregistered and a filter `["bar"]` not containing `foo`,
`compare_output` still emits the unknown-probe WARNING for `foo` instead
of zero anomalies. -/
theorem compare_filter_counterexample :
    "foo" ∉ (["bar"] : List String)
    ∧ compare_output regNone (some ([] : Snapshot)) [("foo", "x")] (some ["bar"]) =
        .ok [W (unknown_msg "foo")]
    ∧ compare_output regNone (some ([] : Snapshot)) [("foo", "x")] (some ["bar"]) ≠
        .ok [] := by
  have h1 : compare_output regNone (some ([] : Snapshot)) [("foo", "x")] (some ["bar"]) =
      .ok [W (unknown_msg "foo")] := rfl
  refine ⟨by decide, h1, ?_⟩
  rw [h1]
  simp

/-- C1 amended: for a registered task excluded by a supplied non-empty
filter, `compare_output` emits zero anomalies and never invokes that
probe's `parse`/`compare` (the result is invariant under replacing them);
but the filter check follows the registry lookup, so an unregistered task
name produces its WARNING even when excluded by the filter. -/
theorem compare_filtered_task {S : Type} (cl : Option (List String))
    (t : String) (reg reg' : Registry S) (cmd cmd' : Command S)
    (hreg : reg t = some cmd) (hreg' : reg' t = some cmd')
    (hagree : ∀ s, s ≠ t → reg' s = reg s)
    (hskip : filter_skips cl t = true) :
    (∀ old new rest acc, compare_tasks reg old new cl (t :: rest) acc =
        compare_tasks reg old new cl rest acc)
    ∧ (∀ old new l acc, compare_tasks reg old new cl l acc =
        compare_tasks reg' old new cl l acc)
    ∧ (∀ old? new, compare_output reg old? new cl = compare_output reg' old? new cl)
    ∧ (∀ (reg₀ : Registry S) old new rest acc, reg₀ t = none →
        compare_tasks reg₀ old new cl (t :: rest) acc =
          compare_tasks reg₀ old new cl rest (acc ++ [W (unknown_msg t)])) := by
  have hta : ∀ old new l acc, compare_tasks reg old new cl l acc =
      compare_tasks reg' old new cl l acc := by
    intro old new l
    induction l with
    | nil => intro acc; rfl
    | cons s rest ih =>
      intro acc
      rw [compare_tasks_step, compare_tasks_step]
      by_cases hs : s = t
      · subst hs
        simp [task_anomalies, hreg, hreg', hskip, ih]
      · have : task_anomalies reg' old new cl s = task_anomalies reg old new cl s := by
          unfold task_anomalies
          rw [hagree s hs]
        rw [this]
        cases task_anomalies reg old new cl s with
        | error e => rfl
        | ok ret => exact ih (acc ++ ret)
  refine ⟨?_, hta, ?_, ?_⟩
  · intro old new rest acc
    rw [compare_tasks_step]
    simp [task_anomalies, hreg, hskip]
  · intro old? new
    unfold compare_output
    exact hta _ _ _ _
  · intro reg₀ old new rest acc h₀
    rw [compare_tasks_step]
    simp [task_anomalies, h₀]

/-- A one-probe `users`-style command used as a concrete fixture. -/
def cmdU : Command Unit :=
  ⟨"tsk", fun _ => (), fun _ _ => PyRet.asList [⟨Kind.CHANGE, "c"⟩]⟩

/-- Same name as `cmdU` but with different `parse`/`compare` behaviour. -/
def cmdU' : Command Unit :=
  ⟨"tsk", fun _ => (), fun _ _ => PyRet.nonList⟩

def regU : Registry Unit := fun s => if s = "tsk" then some cmdU else none

def regU' : Registry Unit := fun s => if s = "tsk" then some cmdU' else none

theorem compare_filtered_task_witness :
    compare_output regU (some [("tsk", "a")]) [("tsk", "b")] (some ["bar"]) =
      compare_output regU' (some [("tsk", "a")]) [("tsk", "b")] (some ["bar"]) :=
  (compare_filtered_task (some ["bar"]) "tsk" regU regU' cmdU cmdU'
    (by simp [regU]) (by simp [regU'])
    (fun s hs => by simp [regU, regU', hs]) (by decide)).2.2.1
    (some [("tsk", "a")]) [("tsk", "b")]

/-- A probe whose `compare` returns a non-list value. -/
def cmdBad : Command Unit := ⟨"badcmd", fun _ => (), fun _ _ => PyRet.nonList⟩

def regBad : Registry Unit := fun s => if s = "badcmd" then some cmdBad else none

theorem compare_tasks_ok_no_error {S : Type} (reg : Registry S)
    (old new : Snapshot) (cl : Option (List String)) :
    ∀ (l : List String) (acc res : List Anomaly),
      compare_tasks reg old new cl l acc = .ok res →
      ∀ t ∈ l, ∀ e, task_anomalies reg old new cl t ≠ .error e := by
  intro l
  induction l with
  | nil =>
    intro acc res _ t ht
    simp at ht
  | cons s rest ih =>
    intro acc res hok t ht e herr
    rw [compare_tasks_step] at hok
    cases hta : task_anomalies reg old new cl s with
    | error e' =>
      rw [hta] at hok
      exact Except.noConfusion hok
    | ok r =>
      rw [hta] at hok
      rcases List.mem_cons.mp ht with rfl | hmem
      · rw [hta] at herr
        exact Except.noConfusion herr
      · exact ih (acc ++ r) res hok t hmem e herr

/-- C4: when a processed probe's `compare` returns a value that is not a
list, the whole comparison aborts at once with the `raise`d exception and
no anomaly list is returned, whatever tasks remain; in particular
`compare_output` never returns an anomaly list for such a run. -/
theorem compare_abort_on_nonlist {S : Type} (reg : Registry S)
    (old new : Snapshot) (cl : Option (List String)) (t : String)
    (cmd : Command S) (rest : List String) (acc : List Anomaly) (new_raw : String)
    (hreg : reg t = some cmd) (hskip : filter_skips cl t = false)
    (hnew : List.lookup t new = some new_raw)
    (hcmp : cmd.compare (cmd.parse (old_raw_of old t)) (cmd.parse new_raw) =
      PyRet.nonList) :
    compare_tasks reg old new cl (t :: rest) acc =
      .error ("unexpected return value type for " ++ cmd.name)
    ∧ (∀ res : List Anomaly,
        compare_tasks reg old new cl (t :: rest) acc ≠ .ok res)
    ∧ (t ∈ merge_keys_to_list old new →
        ∀ res : List Anomaly, compare_output reg (some old) new cl ≠ .ok res) := by
  have herr : task_anomalies reg old new cl t =
      .error ("unexpected return value type for " ++ cmd.name) := by
    simp [task_anomalies, hreg, hskip, hnew, hcmp, type_err_msg]
  have h1 : compare_tasks reg old new cl (t :: rest) acc =
      .error ("unexpected return value type for " ++ cmd.name) := by
    rw [compare_tasks_step, herr]
  refine ⟨h1, fun res h => ?_, fun hmem res h => ?_⟩
  · rw [h1] at h
    exact Except.noConfusion h
  · rw [compare_output_some] at h
    exact compare_tasks_ok_no_error reg old new cl _ [] res h t hmem _ herr

theorem compare_abort_on_nonlist_witness :
    (compare_tasks regBad [] [("badcmd", "x")] none ("badcmd" :: []) [] =
      .error ("unexpected return value type for " ++ cmdBad.name)
    ∧ (∀ res : List Anomaly,
        compare_tasks regBad [] [("badcmd", "x")] none ("badcmd" :: []) [] ≠
          .ok res)
    ∧ ("badcmd" ∈ merge_keys_to_list [] [("badcmd", "x")] →
        ∀ res : List Anomaly,
          compare_output regBad (some []) [("badcmd", "x")] none ≠ .ok res)) :=
  compare_abort_on_nonlist regBad [] [("badcmd", "x")] none "badcmd" cmdBad
    [] [] "x" rfl rfl rfl rfl

/-- C5: a registered task passing the filter is processed with
`old[name]` when present (else the empty string) as the old raw value,
`parse` applied independently to both raw values, the probe's `compare`
applied to the parsed pair, and an absent `new[name]` is a `KeyError`
(caller error), not a default. -/
theorem compare_processed_task {S : Type} (reg : Registry S) (old new : Snapshot)
    (cl : Option (List String)) (t : String) (cmd : Command S)
    (rest : List String) (acc : List Anomaly)
    (hreg : reg t = some cmd) (hskip : filter_skips cl t = false) :
    (∀ v, List.lookup t old = some v → old_raw_of old t = v)
    ∧ (List.lookup t old = none → old_raw_of old t = "")
    ∧ (List.lookup t new = none →
        compare_tasks reg old new cl (t :: rest) acc = .error ("KeyError: " ++ t))
    ∧ (∀ new_raw, List.lookup t new = some new_raw →
        compare_tasks reg old new cl (t :: rest) acc =
          match cmd.compare (cmd.parse (old_raw_of old t)) (cmd.parse new_raw) with
          | .nonList => .error (type_err_msg cmd)
          | .asList ret => compare_tasks reg old new cl rest (acc ++ ret)) := by
  refine ⟨?_, ?_, ?_, ?_⟩
  · intro v hv
    unfold old_raw_of
    rw [hv]
  · intro hv
    unfold old_raw_of
    rw [hv]
  · intro hnew
    rw [compare_tasks_step]
    simp [task_anomalies, hreg, hskip, hnew]
  · intro new_raw hnew
    rw [compare_tasks_step]
    cases hcmp : cmd.compare (cmd.parse (old_raw_of old t)) (cmd.parse new_raw) with
    | nonList => simp [task_anomalies, hreg, hskip, hnew, hcmp]
    | asList ret => simp [task_anomalies, hreg, hskip, hnew, hcmp]

theorem compare_processed_task_witness :
    ((∀ v, List.lookup "tsk" ([("tsk", "a")] : Snapshot) = some v →
        old_raw_of [("tsk", "a")] "tsk" = v)
    ∧ (List.lookup "tsk" ([("tsk", "a")] : Snapshot) = none →
        old_raw_of [("tsk", "a")] "tsk" = "")
    ∧ (List.lookup "tsk" ([("tsk", "b")] : Snapshot) = none →
        compare_tasks regU [("tsk", "a")] [("tsk", "b")] none ("tsk" :: []) [] =
          .error ("KeyError: " ++ "tsk"))
    ∧ (∀ new_raw, List.lookup "tsk" ([("tsk", "b")] : Snapshot) = some new_raw →
        compare_tasks regU [("tsk", "a")] [("tsk", "b")] none ("tsk" :: []) [] =
          match cmdU.compare (cmdU.parse (old_raw_of [("tsk", "a")] "tsk"))
              (cmdU.parse new_raw) with
          | .nonList => .error (type_err_msg cmdU)
          | .asList ret =>
            compare_tasks regU [("tsk", "a")] [("tsk", "b")] none [] ([] ++ ret))) :=
  compare_processed_task regU [("tsk", "a")] [("tsk", "b")] none "tsk" cmdU
    [] [] (by simp [regU]) rfl

/-- C6: the task list is the deduplicated union of old and new keys,
old keys first then new-only keys, each in original order; when every
task succeeds the aggregate result is the concatenation of the per-task
anomaly lists in that task order. -/
theorem compare_output_union_concat {S : Type} (reg : Registry S)
    (old new : Snapshot) (cl : Option (List String)) (f : String → List Anomaly)
    (h : ∀ t ∈ merge_keys_to_list old new, task_anomalies reg old new cl t = .ok (f t)) :
    merge_keys_to_list old new =
      old.map Prod.fst ++
        (new.map Prod.fst).filter (fun k => !(old.map Prod.fst).contains k)
    ∧ (∀ t, t ∈ merge_keys_to_list old new ↔
        (t ∈ old.map Prod.fst ∨ t ∈ new.map Prod.fst))
    ∧ ((old.map Prod.fst).Nodup → (new.map Prod.fst).Nodup →
        (merge_keys_to_list old new).Nodup)
    ∧ compare_output reg (some old) new cl =
        .ok ((merge_keys_to_list old new).flatMap f) := by
  refine ⟨rfl, ?_, ?_, ?_⟩
  · intro t
    simp only [merge_keys_to_list, List.mem_append, List.mem_filter]
    constructor
    · rintro (h1 | ⟨h1, _⟩)
      · exact Or.inl h1
      · exact Or.inr h1
    · rintro (h1 | h1)
      · exact Or.inl h1
      · by_cases h2 : t ∈ old.map Prod.fst
        · exact Or.inl h2
        · refine Or.inr ⟨h1, ?_⟩
          simp [List.contains, List.elem_eq_mem, h2]
  · intro h1 h2
    apply List.Nodup.append h1 (h2.filter _)
    intro a ha hb
    have := List.of_mem_filter hb
    simp only [Bool.not_eq_true', List.contains] at this
    rw [List.elem_eq_mem a (old.map Prod.fst)] at this
    simp only [decide_eq_false_iff_not] at this
    exact this ha
  · rw [compare_output_some, compare_tasks_ok_concat reg old new cl f _ [] h]
    simp

theorem compare_output_union_concat_witness :
    merge_keys_to_list [("a", "1"), ("b", "2")] [("b", "3"), ("c", "4")] =
      ["a", "b", "c"]
    ∧ (merge_keys_to_list [("a", "1"), ("b", "2")] [("b", "3"), ("c", "4")] =
        ([("a", "1"), ("b", "2")] : Snapshot).map Prod.fst ++
          (([("b", "3"), ("c", "4")] : Snapshot).map Prod.fst).filter
            (fun k =>
              !(([("a", "1"), ("b", "2")] : Snapshot).map Prod.fst).contains k)
    ∧ (∀ t, t ∈ merge_keys_to_list [("a", "1"), ("b", "2")] [("b", "3"), ("c", "4")] ↔
        (t ∈ ([("a", "1"), ("b", "2")] : Snapshot).map Prod.fst ∨
          t ∈ ([("b", "3"), ("c", "4")] : Snapshot).map Prod.fst))
    ∧ ((([("a", "1"), ("b", "2")] : Snapshot).map Prod.fst).Nodup →
        ((([("b", "3"), ("c", "4")] : Snapshot).map Prod.fst).Nodup →
        (merge_keys_to_list [("a", "1"), ("b", "2")] [("b", "3"), ("c", "4")]).Nodup))
    ∧ compare_output regNone (some [("a", "1"), ("b", "2")]) [("b", "3"), ("c", "4")] none =
        .ok ((merge_keys_to_list [("a", "1"), ("b", "2")] [("b", "3"), ("c", "4")]).flatMap
          (fun t => [W (unknown_msg t)]))) :=
  ⟨by decide,
    compare_output_union_concat regNone [("a", "1"), ("b", "2")] [("b", "3"), ("c", "4")]
      none (fun t => [W (unknown_msg t)]) (fun t _ => rfl)⟩

/-- The presentation function `print_anomalies(anomalies, show_debug,
show_color)` from lines 37–55 of `dawgmon.py`, modelled as the list of
printed lines. -/
def print_anomalies (anomalies : List Anomaly) (show_debug : Bool)
    (show_color : Bool) : List String :=
  let changes := anomalies.filter (fun x => x.kind == Kind.CHANGE)
  let warning := anomalies.filter (fun x => x.kind == Kind.WARNING)
  let debug := if show_debug then anomalies.filter (fun x => x.kind == Kind.DEBUG) else []
  let c1 := if show_color then "\x1b[32m" else ""
  let c2 := if show_color then "\x1b[31m" else ""
  let c3 := if show_color then "\x1b[36m" else ""
  let c4 := if show_color then "\x1b[34m" else ""
  let c_end := if show_color then "\x1b[0m" else ""
  let la := changes.length
  let lw := warning.length
  let ld := debug.length
  let debugs := if ld > 0 then
      " and " ++ toString ld ++ " debug message" ++ (if ld != 1 then "s" else "")
    else ""
  let head := c1 ++ toString la ++ " change" ++ (if la != 1 then "s" else "") ++
    " detected (" ++ toString lw ++ " warning" ++ (if lw != 1 then "s" else "") ++
    debugs ++ ")" ++ c_end
  [head] ++ warning.map (fun w => c2 ++ "! " ++ w.message ++ c_end)
    ++ changes.map (fun c => c3 ++ "+ " ++ c.message ++ c_end)
    ++ (if show_debug then debug.map (fun d => c4 ++ "- " ++ d.message ++ c_end) else [])

/-- C9: output of `print_anomalies` is one header line followed by the
WARNING lines, the CHANGE lines, and (only with the debug flag) the DEBUG
lines, each group listing the input anomalies of that kind in their input
order; without the debug flag, DEBUG anomalies influence nothing at all:
the output equals that on the input with all DEBUG anomalies removed. -/
theorem print_anomalies_grouping (anomalies : List Anomaly) (sd sc : Bool) :
    print_anomalies anomalies sd sc ≠ []
    ∧ (print_anomalies anomalies sd sc).drop 1 =
        ((anomalies.filter (fun x => x.kind == Kind.WARNING)).map
            (fun w => (if sc then "\x1b[31m" else "") ++ "! " ++ w.message ++
              (if sc then "\x1b[0m" else ""))
          ++ (anomalies.filter (fun x => x.kind == Kind.CHANGE)).map
            (fun c => (if sc then "\x1b[36m" else "") ++ "+ " ++ c.message ++
              (if sc then "\x1b[0m" else ""))
          ++ (if sd then
              (anomalies.filter (fun x => x.kind == Kind.DEBUG)).map
                (fun d => (if sc then "\x1b[34m" else "") ++ "- " ++ d.message ++
                  (if sc then "\x1b[0m" else ""))
            else []))
    ∧ print_anomalies anomalies false sc =
        print_anomalies (anomalies.filter (fun x => !(x.kind == Kind.DEBUG))) false sc := by
  have hw : (anomalies.filter (fun x => !(x.kind == Kind.DEBUG))).filter
      (fun x => x.kind == Kind.WARNING) =
      anomalies.filter (fun x => x.kind == Kind.WARNING) := by
    rw [List.filter_filter]
    apply List.filter_congr
    intro x _
    cases x.kind <;> rfl
  have hc : (anomalies.filter (fun x => !(x.kind == Kind.DEBUG))).filter
      (fun x => x.kind == Kind.CHANGE) =
      anomalies.filter (fun x => x.kind == Kind.CHANGE) := by
    rw [List.filter_filter]
    apply List.filter_congr
    intro x _
    cases x.kind <;> rfl
  refine ⟨?_, ?_, ?_⟩
  · unfold print_anomalies
    cases sd <;> simp
  · unfold print_anomalies
    cases sd <;> simp
  · unfold print_anomalies
    simp [hw, hc]

/-- Modelled from the spec: a cache entry of the snapshot store
(`cache.py` is not in the source tree): an id, a timestamp and the stored
snapshot (spec §3 CacheEntry). -/
structure CacheEntry where
  id : Nat
  timestamp : Nat
  snapshot : Snapshot
  deriving DecidableEq, Repr

/-- Modelled from the spec: the snapshot store (`cache.Cache`, not in the
source tree), an ordered collection of cache entries in ascending id
order (spec §4.3). -/
structure Cache where
  entries : List CacheEntry
  deriving DecidableEq, Repr

/-- Modelled from the spec: `Cache.get_entry` is exact id lookup
(spec §4.3 `entry(id) -> Snapshot | absent`). -/
def Cache.get_entry (c : Cache) (i : Int) : Option Snapshot :=
  (c.entries.find? (fun e => (e.id : Int) == i)).map CacheEntry.snapshot

/-- Modelled from the spec: `Cache.get_last_entry` returns the snapshot
of the entry with the greatest id, i.e. the last in ascending order
(spec §4.3 `lastEntry`). -/
def Cache.get_last_entry (c : Cache) : Option Snapshot :=
  c.entries.getLast?.map CacheEntry.snapshot

/-- The command-line arguments of `run` after `parse_args`
(lines 65–79 of `dawgmon.py`), in flag order -A -C -E -L -d -e -f -g -m. -/
structure Args where
  analyze : Bool
  compare_cache : Option (Int × Int)
  list_commands : Bool
  list_cache : Bool
  show_debug : Bool
  commandlist : Option (List String)
  force : Bool
  colorize : Bool
  max_cache_entries : Int
  deriving DecidableEq, Repr

/-- The process environment `run` interacts with: effective uid, the
interactive answer, the probe registry with its key list, the built-in
command name list `commands.COMMANDS`, the collector `local_run`, and the
loaded cache contents. -/
structure Env (S : Type) where
  euid : Nat
  answer : String
  registry : Registry S
  registry_keys : List String
  commands_names : List String
  collect : List String → Snapshot
  cache : Cache

/-- Observable effects of one invocation of `run`, in order. -/
inductive Effect
  | print (s : String)
  | exitCode (n : Nat)
  | prompt (s : String)
  | cacheLoad
  | localRun (cmds : List String)
  | cacheAdd
  | diffStage
  | exception (msg : String)
  | printedAnomalies (ls : List String)
  | cachePurge (n : Int)
  | cacheSave
  deriving DecidableEq, Repr

/-- Python falsiness of an optional list (`not args.commandlist`):
`None` and the empty list are falsy. -/
def optListFalsy (cl : Option (List String)) : Bool :=
  match cl with
  | none => true
  | some l => l.isEmpty

/-- Python falsiness of an optional snapshot (`not old`): `None` and the
empty dict are falsy. -/
def snapFalsy (o : Option Snapshot) : Bool :=
  match o with
  | none => true
  | some s => s.isEmpty

/-- Lines 149–159 of `dawgmon.py`: run the diff, print the anomalies and
update the cache; an exception from `compare_output` propagates and
nothing after it runs. -/
def finish_trace {S : Type} (args : Args) (reg : Registry S)
    (commandlist : List String) (pre_anoms : List Anomaly)
    (old? : Option Snapshot) (new : Snapshot) : List Effect :=
  Effect.diffStage ::
    (match compare_output reg old? new (some commandlist) with
     | .error e => [Effect.exception e]
     | .ok res =>
       [Effect.printedAnomalies
          (print_anomalies (pre_anoms ++ res) args.show_debug args.colorize),
        Effect.cachePurge args.max_cache_entries, Effect.cacheSave])

/-- Lines 133–138 of `dawgmon.py`: the warnings accumulated before the
diff in the analyze branch. -/
def analyze_pre_anoms {S : Type} (env : Env S) (add_to_cache : Bool) :
    List Anomaly :=
  if add_to_cache then
    if snapFalsy env.cache.get_last_entry then
      [W "no cache entry found yet so caching baseline"]
    else []
  else [W "results NOT cached as only partial command list being run"]

/-- Lines 129–138 of `dawgmon.py`: the analyze branch. -/
def analyze_trace {S : Type} (args : Args) (env : Env S)
    (commandlist : List String) (add_to_cache : Bool) : List Effect :=
  Effect.localRun commandlist ::
    ((if add_to_cache then [Effect.cacheAdd] else []) ++
      finish_trace args env.registry commandlist
        (analyze_pre_anoms env add_to_cache) env.cache.get_last_entry
        (env.collect commandlist))

/-- Lines 139–147 of `dawgmon.py`: the explicit id-vs-id comparison
branch; the second id is looked up first. -/
def compare_trace {S : Type} (args : Args) (env : Env S)
    (commandlist : List String) (id1 id2 : Int) : List Effect :=
  match env.cache.get_entry id2 with
  | none => [Effect.print ("cannot find cache entry with id " ++ toString id2)]
  | some newS =>
    match env.cache.get_entry id1 with
    | none => [Effect.print ("cannot find cache entry with id " ++ toString id1)]
    | some oldS => finish_trace args env.registry commandlist [] (some oldS) newS

/-- Right-align a number in a field of width 4 (`"{:4d}"`). -/
def pad4 (n : Nat) : String :=
  let s := toString n
  if s.length < 4 then String.mk (List.replicate (4 - s.length) ' ') ++ s else s

/-- Lines 103–108 of `dawgmon.py`: the -L cache listing. -/
def list_cache_trace (c : Cache) : List Effect :=
  Effect.print "  ID\tTIMESTAMP" ::
    c.entries.map (fun e => Effect.print (pad4 e.id ++ "\t" ++ toString e.timestamp))

/-- Insert a string into a sorted list of strings. -/
def insertSorted (s : String) : List String → List String
  | [] => [s]
  | x :: xs => if x < s then x :: insertSorted s xs else s :: x :: xs

/-- Insertion sort for `cmd_list.sort()` on line 112 of `dawgmon.py`. -/
def sortStrings (l : List String) : List String :=
  l.foldr insertSorted []

/-- Lines 110–115 of `dawgmon.py`: the -E command listing. -/
def list_commands_trace (keys : List String) : List Effect :=
  (sortStrings keys).map Effect.print

/-- Lines 120–124 of `dawgmon.py`: the command list actually used — the
one given with -e, or all of `commands.COMMANDS` when none (or an empty
one) was given. -/
def cmdl_of {S : Type} (args : Args) (env : Env S) : List String :=
  if optListFalsy args.commandlist then env.commands_names
  else args.commandlist.getD []

/-- Dispatch between the listing modes and the analyze/compare branches,
lines 103–152 of `dawgmon.py`. -/
def run_inner {S : Type} (args : Args) (env : Env S) : List Effect :=
  if args.list_cache then list_cache_trace env.cache
  else if args.list_commands then list_commands_trace env.registry_keys
  else if args.analyze then
    analyze_trace args env (cmdl_of args env)
      (optListFalsy args.commandlist && args.analyze)
  else
    match args.compare_cache with
    | some (id1, id2) => compare_trace args env (cmdl_of args env) id1 id2
    | none => []

/-- The interactive root-check of lines 92–96 of `dawgmon.py`: whether
the prompt is shown at all. -/
def needPrompt {S : Type} (args : Args) (env : Env S) : Bool :=
  !args.force && (env.euid != 0) && args.analyze

/-- The prompt effects, when shown. -/
def promptT {S : Type} (args : Args) (env : Env S) : List Effect :=
  if needPrompt args env then
    [Effect.print "It's strongly recommended to run an analysis as root.",
     Effect.prompt "Continue anyway with the analysis y/n? "]
  else []

/-- The observable behaviour of `run` (lines 57–159 of `dawgmon.py`)
after argument parsing, as a trace of effects. -/
def run {S : Type} (args : Args) (env : Env S) : List Effect :=
  if args.max_cache_entries < 1 ∨ args.max_cache_entries > 1024 then
    [Effect.print "maximum number of cache entries invalid or set too high [1-1024]",
     Effect.exitCode 1]
  else if !args.list_cache && !args.list_commands && !args.analyze
      && args.compare_cache.isNone then
    [Effect.print "select an action -A/C/E/L"]
  else if needPrompt args env
      && !((env.answer.length == 1) && (env.answer.toLower == "y")) then
    promptT args env
  else
    promptT args env ++ [Effect.cacheLoad] ++ run_inner args env

/-- C8: a max-cache-entries value outside 1..1024 makes `run` print an
error and exit with status 1 before loading the cache or doing anything
else. -/
theorem run_rejects_bad_max {S : Type} (args : Args) (env : Env S)
    (h : args.max_cache_entries < 1 ∨ args.max_cache_entries > 1024) :
    run args env =
      [Effect.print "maximum number of cache entries invalid or set too high [1-1024]",
       Effect.exitCode 1]
    ∧ Effect.cacheLoad ∉ run args env
    ∧ Effect.diffStage ∉ run args env
    ∧ Effect.cachePurge args.max_cache_entries ∉ run args env
    ∧ Effect.cacheSave ∉ run args env := by
  have h1 : run args env =
      [Effect.print "maximum number of cache entries invalid or set too high [1-1024]",
       Effect.exitCode 1] := by
    unfold run
    rw [if_pos h]
  refine ⟨h1, ?_, ?_, ?_, ?_⟩ <;> rw [h1] <;> simp

def args0 : Args := ⟨false, none, false, false, false, none, false, false, 0⟩

def env0 : Env Unit := ⟨0, "y", regNone, [], [], fun _ => [], ⟨[]⟩⟩

theorem run_rejects_bad_max_witness :
    run args0 env0 =
      [Effect.print "maximum number of cache entries invalid or set too high [1-1024]",
       Effect.exitCode 1]
    ∧ Effect.cacheLoad ∉ run args0 env0
    ∧ Effect.diffStage ∉ run args0 env0
    ∧ Effect.cachePurge args0.max_cache_entries ∉ run args0 env0
    ∧ Effect.cacheSave ∉ run args0 env0 :=
  run_rejects_bad_max args0 env0 (Or.inl (by decide))

/-- C7: in explicit id-vs-id comparison mode a missing cache entry id
stops `run` right after the cache load with a message naming the missing
id; no diff is computed, nothing is printed by `print_anomalies`, and the
cache is neither purged nor saved. -/
theorem run_compare_missing_id {S : Type} (args : Args) (env : Env S)
    (id1 id2 : Int)
    (hrange : ¬(args.max_cache_entries < 1 ∨ args.max_cache_entries > 1024))
    (hcc : args.compare_cache = some (id1, id2))
    (hlc : args.list_cache = false) (hle : args.list_commands = false)
    (han : args.analyze = false) :
    (env.cache.get_entry id2 = none →
      run args env = [Effect.cacheLoad,
        Effect.print ("cannot find cache entry with id " ++ toString id2)])
    ∧ (∀ newS, env.cache.get_entry id2 = some newS →
        env.cache.get_entry id1 = none →
      run args env = [Effect.cacheLoad,
        Effect.print ("cannot find cache entry with id " ++ toString id1)])
    ∧ ((env.cache.get_entry id2 = none ∨ env.cache.get_entry id1 = none) →
        Effect.diffStage ∉ run args env
        ∧ (∀ ls, Effect.printedAnomalies ls ∉ run args env)
        ∧ Effect.cachePurge args.max_cache_entries ∉ run args env
        ∧ Effect.cacheSave ∉ run args env) := by
  have hrun : run args env = [Effect.cacheLoad] ++
      compare_trace args env
        (if optListFalsy args.commandlist then env.commands_names
         else args.commandlist.getD []) id1 id2 := by
    unfold run
    rw [if_neg hrange]
    simp [run_inner, cmdl_of, needPrompt, promptT, hcc, hlc, hle, han]
  constructor
  · intro h2
    rw [hrun]
    unfold compare_trace
    rw [h2]
    rfl
  constructor
  · intro newS h2 h1
    rw [hrun]
    unfold compare_trace
    rw [h2, h1]
    rfl
  · intro hmiss
    have htr : ∃ i : Int, run args env = [Effect.cacheLoad,
        Effect.print ("cannot find cache entry with id " ++ toString i)] := by
      rw [hrun]
      unfold compare_trace
      cases h2 : env.cache.get_entry id2 with
      | none => exact ⟨id2, rfl⟩
      | some newS =>
        cases h1 : env.cache.get_entry id1 with
        | none => exact ⟨id1, rfl⟩
        | some oldS =>
          rcases hmiss with hm | hm
          · rw [hm] at h2; exact absurd h2 (by simp)
          · rw [hm] at h1; exact absurd h1 (by simp)
    obtain ⟨i, hi⟩ := htr
    refine ⟨?_, ?_, ?_, ?_⟩ <;> rw [hi] <;> simp

def cache7 : Cache := ⟨[⟨1, 10, [("foo", "x")]⟩]⟩

def args7 : Args := ⟨false, some (1, 2), false, false, false, none, false, false, 16⟩

def env7 : Env Unit := ⟨0, "y", regNone, [], [], fun _ => [], cache7⟩

theorem run_compare_missing_id_witness :
    ((cache7 : Cache).get_entry 2 = none →
      run args7 env7 = [Effect.cacheLoad,
        Effect.print ("cannot find cache entry with id " ++ toString (2 : Int))])
    ∧ (∀ newS, (cache7 : Cache).get_entry 2 = some newS →
        (cache7 : Cache).get_entry 1 = none →
      run args7 env7 = [Effect.cacheLoad,
        Effect.print ("cannot find cache entry with id " ++ toString (1 : Int))])
    ∧ (((cache7 : Cache).get_entry 2 = none ∨ (cache7 : Cache).get_entry 1 = none) →
        Effect.diffStage ∉ run args7 env7
        ∧ (∀ ls, Effect.printedAnomalies ls ∉ run args7 env7)
        ∧ Effect.cachePurge args7.max_cache_entries ∉ run args7 env7
        ∧ Effect.cacheSave ∉ run args7 env7) :=
  run_compare_missing_id args7 env7 1 2 (by decide) rfl rfl rfl rfl

theorem diffStage_not_mem_promptT {S : Type} (args : Args) (env : Env S) :
    Effect.diffStage ∉ promptT args env := by
  unfold promptT
  cases needPrompt args env <;> simp

theorem diffStage_not_mem_list_cache (c : Cache) :
    Effect.diffStage ∉ list_cache_trace c := by
  simp [list_cache_trace]

theorem diffStage_not_mem_list_commands (keys : List String) :
    Effect.diffStage ∉ list_commands_trace keys := by
  simp [list_commands_trace]

/-- C10 amended: a run that reaches the diff stage and whose comparison
completes without a contract-violation exception always ends by printing
the anomalies and then calling `purge(max_cache_entries)` followed by
`save()` — also in the read-only id-vs-id comparison mode. -/
theorem run_diff_updates_cache {S : Type} (args : Args) (env : Env S)
    (hdiff : Effect.diffStage ∈ run args env)
    (hnoexc : ∀ m, Effect.exception m ∉ run args env) :
    ∃ (p : List Effect) (ls : List String),
      run args env = p ++
        [Effect.printedAnomalies ls, Effect.cachePurge args.max_cache_entries,
         Effect.cacheSave] := by
  have decomp : ∃ (p : List Effect) (cm : List String) (pa : List Anomaly)
      (old? : Option Snapshot) (newS : Snapshot),
      run args env = p ++ finish_trace args env.registry cm pa old? newS := by
    by_cases h1 : args.max_cache_entries < 1 ∨ args.max_cache_entries > 1024
    · exfalso
      unfold run at hdiff
      rw [if_pos h1] at hdiff
      simp at hdiff
    by_cases h2 : (!args.list_cache && !args.list_commands && !args.analyze
        && args.compare_cache.isNone) = true
    · exfalso
      unfold run at hdiff
      rw [if_neg h1, if_pos h2] at hdiff
      simp at hdiff
    by_cases h3 : (needPrompt args env
        && !((env.answer.length == 1) && (env.answer.toLower == "y"))) = true
    · exfalso
      unfold run at hdiff
      rw [if_neg h1, if_neg h2, if_pos h3] at hdiff
      exact diffStage_not_mem_promptT args env hdiff
    have hrun : run args env =
        promptT args env ++ [Effect.cacheLoad] ++ run_inner args env := by
      unfold run
      rw [if_neg h1, if_neg h2, if_neg h3]
    have hdi : Effect.diffStage ∈ run_inner args env := by
      rw [hrun] at hdiff
      rcases List.mem_append.mp hdiff with h | h
      · rcases List.mem_append.mp h with h' | h'
        · exact absurd h' (diffStage_not_mem_promptT args env)
        · simp at h'
      · exact h
    by_cases h4 : args.list_cache = true
    · exfalso
      unfold run_inner at hdi
      rw [if_pos h4] at hdi
      exact diffStage_not_mem_list_cache env.cache hdi
    by_cases h5 : args.list_commands = true
    · exfalso
      unfold run_inner at hdi
      rw [if_neg h4, if_pos h5] at hdi
      exact diffStage_not_mem_list_commands env.registry_keys hdi
    by_cases h6 : args.analyze = true
    · have hri : run_inner args env = analyze_trace args env (cmdl_of args env)
          (optListFalsy args.commandlist && args.analyze) := by
        unfold run_inner
        rw [if_neg h4, if_neg h5, if_pos h6]
      refine ⟨promptT args env ++
          [Effect.cacheLoad, Effect.localRun (cmdl_of args env)] ++
          (if (optListFalsy args.commandlist && args.analyze) then
            [Effect.cacheAdd] else []),
        cmdl_of args env,
        analyze_pre_anoms env (optListFalsy args.commandlist && args.analyze),
        env.cache.get_last_entry, env.collect (cmdl_of args env), ?_⟩
      rw [hrun, hri]
      unfold analyze_trace
      simp
    · cases hcc : args.compare_cache with
      | none =>
        exfalso
        unfold run_inner at hdi
        rw [if_neg h4, if_neg h5, if_neg h6, hcc] at hdi
        simp at hdi
      | some p12 =>
        obtain ⟨id1, id2⟩ := p12
        have hri : run_inner args env =
            compare_trace args env (cmdl_of args env) id1 id2 := by
          unfold run_inner
          rw [if_neg h4, if_neg h5, if_neg h6, hcc]
        cases hg2 : env.cache.get_entry id2 with
        | none =>
          exfalso
          rw [hri] at hdi
          unfold compare_trace at hdi
          rw [hg2] at hdi
          simp at hdi
        | some newS =>
          cases hg1 : env.cache.get_entry id1 with
          | none =>
            exfalso
            rw [hri] at hdi
            unfold compare_trace at hdi
            rw [hg2, hg1] at hdi
            simp at hdi
          | some oldS =>
            refine ⟨promptT args env ++ [Effect.cacheLoad],
              cmdl_of args env, [], some oldS, newS, ?_⟩
            rw [hrun, hri]
            unfold compare_trace
            rw [hg2, hg1]
  obtain ⟨p, cm, pa, old?, newS, hp⟩ := decomp
  unfold finish_trace at hp
  cases hco : compare_output env.registry old? newS (some cm) with
  | error e =>
    exfalso
    apply hnoexc e
    rw [hp]
    simp only [hco]
    simp
  | ok res =>
    simp only [hco] at hp
    refine ⟨p ++ [Effect.diffStage],
      print_anomalies (pa ++ res) args.show_debug args.colorize, ?_⟩
    rw [hp]
    simp

def cacheY : Cache := ⟨[⟨1, 10, [("tsk", "x")]⟩, ⟨2, 20, [("tsk", "x")]⟩]⟩

def argsY : Args := ⟨false, some (1, 2), false, false, false, none, false, false, 16⟩

def envY : Env Unit := ⟨0, "y", regU, ["tsk"], ["tsk"], fun _ => [], cacheY⟩

theorem run_diff_updates_cache_witness :
    ∃ (p : List Effect) (ls : List String),
      run argsY envY = p ++
        [Effect.printedAnomalies ls, Effect.cachePurge argsY.max_cache_entries,
         Effect.cacheSave] := by
  have hY : run argsY envY = [Effect.cacheLoad, Effect.diffStage,
      Effect.printedAnomalies ["1 change detected (0 warnings)", "+ c"],
      Effect.cachePurge 16, Effect.cacheSave] := by rfl
  exact run_diff_updates_cache argsY envY (by rw [hY]; simp)
    (fun m => by rw [hY]; simp)

def cacheX : Cache := ⟨[⟨1, 10, [("badcmd", "x")]⟩, ⟨2, 20, [("badcmd", "x")]⟩]⟩

def argsX : Args := ⟨false, some (1, 2), false, false, false, none, false, false, 16⟩

def envX : Env Unit := ⟨0, "y", regBad, ["badcmd"], ["badcmd"], fun _ => [], cacheX⟩

/-- C10 is false as stated: a run in the id-vs-id comparison mode whose
cached snapshots make a probe's `compare` return a non-list does reach
the diff stage, yet the propagating exception means neither
`purge(max_cache_entries)` nor `save()` is ever called. -/
theorem run_purge_save_counterexample :
    Effect.diffStage ∈ run argsX envX
    ∧ Effect.cachePurge argsX.max_cache_entries ∉ run argsX envX
    ∧ Effect.cacheSave ∉ run argsX envX := by
  have hX : run argsX envX = [Effect.cacheLoad, Effect.diffStage,
      Effect.exception ("unexpected return value type for " ++ "badcmd")] := by
    rfl
  refine ⟨?_, ?_, ?_⟩ <;> rw [hX] <;> simp

end Dawgmon
